import Mathlib

/-!
Shallow embedding of `utils/model.py` from the Sakura-13B-Galgame repository.

The module wraps an external causal-LM library: tokenizer/model construction,
token generation, response splitting, degeneration detection and the test-case
registry are external collaborators.  They are embedded as opaque function
parameters (fields of `Tokenizer`, `Model` and `Externals`); potential
stochasticity of a `generate` call is made explicit through an `entropy`
argument.  Calls to the logging framework are embedded as emitted `LogEvent`
values, and `exit(-1)` / raised exceptions as explicit outcome constructors.
-/

namespace Sakura

/-- Embedding of Python's substring test `needle.isPrefix-of haystack` helper:
`beginsWith n h` holds when `n` is an initial segment of `h`. -/
def beginsWith : List Char → List Char → Bool
  | [], _ => true
  | _ :: _, [] => false
  | a :: as, b :: bs => a = b && beginsWith as bs

/-- Embedding of Python's `needle in haystack` on strings (substring containment,
with the empty needle contained in every string). -/
def substringOf (needle : List Char) : List Char → Bool
  | [] => needle.isEmpty
  | c :: t => beginsWith needle (c :: t) || substringOf needle t

/-- Python's `needle in haystack` for `String`. -/
def pyInStr (needle haystack : String) : Bool :=
  substringOf needle.toList haystack.toList

/-- Embedding of `transformers.GenerationConfig` restricted to the fields the
source constructs in `get_model_response_anti_degen` (floats become `ℚ`; the
record is passed opaquely to the external `generate`). -/
structure GenerationConfig where
  temperature : ℚ := 1
  top_p : ℚ := 1
  top_k : Nat := 50
  num_beams : Nat := 1
  bos_token_id : Nat := 1
  eos_token_id : Nat := 2
  pad_token_id : Nat := 0
  max_new_tokens : Nat := 20
  min_new_tokens : Nat := 0
  do_sample : Bool := false
  repetition_penalty : ℚ := 1
  frequency_penalty : ℚ := 0
  deriving DecidableEq, Repr

/-- Embedding of the `SakuraModelConfig` dataclass (`model.py` lines 26-38). -/
structure SakuraModelConfig where
  model_name_or_path : String
  use_gptq_model : Bool
  trust_remote_code : Bool := false
  llama : Bool := false
  text_length : Nat := 512
  model_name : Option String := none
  model_quant : Option String := none
  model_version : String := "0.8"
  deriving DecidableEq, Repr

/-- The three `sakura_*` identity attributes the loaded model's `config.json`
may or may not carry (`model.py` lines 92-95); a missing attribute is `none`. -/
structure ModelSelfConfig where
  sakura_name : Option String := none
  sakura_version : Option String := none
  sakura_quant : Option String := none
  deriving DecidableEq, Repr

/-- Opaque embedding of the external tokenizer: `tokenize` stands for
`tokenizer(prompt, return_tensors="pt").input_ids` and `decode` for
`tokenizer.decode`. -/
structure Tokenizer where
  tokenize : String → List Nat
  decode : List Nat → String

/-- Opaque embedding of the external model object.  `generate toks gc e` stands
for `model.generate(**input, generation_config=gc)[0]` (the full returned token
sequence); the extra `e : Nat` is an entropy source making any sampling
randomness of the external library explicit. -/
structure Model where
  generate : List Nat → GenerationConfig → Nat → List Nat
  config : ModelSelfConfig

/-- Modelled from the spec: the external collaborators of `utils`/`consts`
(response splitting, degeneration detection, version-keyed test-case registry
and prompt templating), which are not under `src/`; the spec leaves their logic
unspecified, so they are opaque parameters here. -/
structure Externals where
  split_response : String → String → String
  detect_degeneration : List Nat → String → Bool
  get_test_case_by_model_version : String → GenerationConfig × String × String
  get_prompt : String → String → String

/-- Embedding of the `SakuraModel.ModelResponse` record (`model.py` lines
70-73).  `new_token` is an `Int` because the source computes it by Python
subtraction `generation.shape[-1] - input_token_len`. -/
structure ModelResponse where
  context_token : Nat
  new_token : Int
  text : String
  deriving DecidableEq, Repr

/-- Calls to the logging framework, embedded as data. -/
inductive LogEvent where
  | speed (new_token : Int) (context : Nat)
  | warn (msg : String)
  | errorMsg (msg : String)
  | debugMsg (msg : String)
  deriving DecidableEq, Repr

/-- Recogniser for the throughput line `get_model_response` logs when
`is_print_speed` is set. -/
def LogEvent.isSpeed : LogEvent → Bool
  | .speed _ _ => true
  | _ => false

/-- Embedding of `load_model` (`model.py` lines 40-65).  The external
constructor calls are bundled into `loader`; the function first runs the
trust-flag check of line 47 — note the source tests
`args.model_version in "0.5 0.7 0.8"`, a Python substring containment —
and only invokes the loader when the check passes. -/
def load_model (loader : SakuraModelConfig → Tokenizer × Model)
    (args : SakuraModelConfig) : Except String (Tokenizer × Model) :=
  if (args.trust_remote_code == false) && pyInStr args.model_version "0.5 0.7 0.8" then
    .error "If you use model version 0.5, 0.7 or 0.8, please add flag --trust_remote_code."
  else
    .ok (loader args)

/-- The functional state of a constructed `SakuraModel`: its configuration
record and the tokenizer/model bindings (the lock is treated separately). -/
structure SakuraModelState where
  cfg : SakuraModelConfig
  tokenizer : Tokenizer
  model : Model

/-- Possible outcomes of running `SakuraModel.__init__`: an exception
propagating out of `load_model`, process termination via `exit`, or a
constructed state. -/
inductive InitOutcome where
  | raised (msg : String)
  | exited (code : Int) (logs : List LogEvent)
  | succeeded (s : SakuraModelState)

/-- Embedding of `SakuraModel.__init__` (`model.py` lines 76-111): load the
model, read the three `sakura_*` attributes (a bare `except` turns any missing
attribute into `exit(-1)`), compare the declared version with the model's
reported version (`exit(-1)` on mismatch), and otherwise back-fill the three
post-load fields of the configuration record. -/
def SakuraModel_init (loader : SakuraModelConfig → Tokenizer × Model)
    (cfg : SakuraModelConfig) : InitOutcome :=
  match load_model loader cfg with
  | .error msg => .raised msg
  | .ok (tokenizer, model) =>
    match model.config.sakura_name, model.config.sakura_version, model.config.sakura_quant with
    | some model_name, some model_version, some model_quant =>
      if cfg.model_version ≠ model_version then
        .exited (-1)
          [LogEvent.errorMsg ("Model version check failed, " ++ cfg.model_version ++ " != " ++ model_version),
           LogEvent.errorMsg ("Current config: " ++ model_name ++ "-v" ++ model_version ++ "-" ++ model_quant)]
      else
        .succeeded
          { cfg := { cfg with
              model_name := some model_name,
              model_version := model_version,
              model_quant := some model_quant },
            tokenizer := tokenizer,
            model := model }
    | _, _, _ =>
      .exited (-1)
        [LogEvent.errorMsg "Some attrs are missing in model config.json (sakura_{name|version|quant}), please check the model!"]

/-- Embedding of `SakuraModel.get_max_text_length` (`model.py` lines 129-130). -/
def get_max_text_length (cfg : SakuraModelConfig) (length : Nat) : Nat :=
  max cfg.text_length length

/-- Embedding of `SakuraModel.get_model_response` (`model.py` lines 160-178):
tokenize, generate under the lock, decode, split, and return the response
record; the throughput log line is emitted iff `is_print_speed`.  The
`text_length` parameter is carried exactly as in the source, where the body
never reads it. -/
def get_model_response (ext : Externals) (model : Model) (tokenizer : Tokenizer)
    (prompt : String) (model_version : String) (generation_config : GenerationConfig)
    (text_length : Nat) (entropy : Nat) (is_print_speed : Bool) :
    ModelResponse × List LogEvent :=
  let input_token := tokenizer.tokenize prompt
  let input_token_len := input_token.length
  let generation := model.generate input_token generation_config entropy
  let new_token : Int := (generation.length : Int) - (input_token_len : Int)
  let response := tokenizer.decode generation
  let output := ext.split_response response model_version
  let _ := text_length
  ({ context_token := input_token_len, new_token := new_token, text := output },
   if is_print_speed then [LogEvent.speed new_token input_token_len] else [])

/-- Embedding of `SakuraModel.completion` (`model.py` lines 132-145). -/
def completion (ext : Externals) (s : SakuraModelState) (prompt : String)
    (generation_config : GenerationConfig) (entropy : Nat) (is_print_speed : Bool) :
    ModelResponse × List LogEvent :=
  get_model_response ext s.model s.tokenizer prompt s.cfg.model_version
    generation_config (get_max_text_length s.cfg prompt.length) entropy is_print_speed

/-- Embedding of `SakuraModel.completion` as a state transformer: the source
method reads `self` but assigns to none of its fields, so the embedding of the
body returns the incoming state unchanged next to the response. -/
def completionS (ext : Externals) (s : SakuraModelState) (prompt : String)
    (generation_config : GenerationConfig) (entropy : Nat) (is_print_speed : Bool) :
    SakuraModelState × ModelResponse × List LogEvent :=
  (s, completion ext s prompt generation_config entropy is_print_speed)

/-- Embedding of `SakuraModel.test_loaded` (`model.py` lines 147-157): look up
the version-keyed test case, build the prompt, and run `completion` with
`is_print_speed := false`. -/
def test_loaded (ext : Externals) (s : SakuraModelState) (entropy : Nat) :
    String × String × ModelResponse × List LogEvent :=
  let testcase := ext.get_test_case_by_model_version s.cfg.model_version
  let generation_config := testcase.1
  let test_input := testcase.2.1
  let test_output := testcase.2.2
  let prompt := ext.get_prompt test_input s.cfg.model_version
  let output := completion ext s prompt generation_config entropy false
  (prompt, test_output, output)

/-- Embedding of `SakuraModel.check_model_by_magic` (`model.py` lines 116-126):
compare the produced text with the ground truth by string equality; on mismatch
emit the four warning lines and return `false`. -/
def check_model_by_magic (ext : Externals) (s : SakuraModelState) (entropy : Nat) :
    Bool × List LogEvent :=
  let r := test_loaded ext s entropy
  let prompt := r.1
  let ground_truth := r.2.1
  let output := r.2.2.1
  let clogs := r.2.2.2
  let ret := ground_truth == output.text
  (ret,
   clogs ++
   [LogEvent.debugMsg ("test output: " ++ output.text),
    LogEvent.debugMsg ("ground truth: " ++ ground_truth)] ++
   (if ret then []
    else
      [LogEvent.warn "model output is not correct, please check the loaded model",
       LogEvent.warn ("input: " ++ prompt),
       LogEvent.warn ("ground_truth: " ++ ground_truth),
       LogEvent.warn ("current output: " ++ output.text)]))

/-- The stage-2 fallback sampling configuration of
`get_model_response_anti_degen` (`model.py` lines 181-194). -/
def backup_generation_config_stage2 (text_length : Nat) : GenerationConfig :=
  { temperature := 1/10, top_p := 3/10, top_k := 40, num_beams := 1,
    bos_token_id := 1, eos_token_id := 2, pad_token_id := 0,
    max_new_tokens := 2 * text_length, min_new_tokens := 1, do_sample := true,
    repetition_penalty := 1, frequency_penalty := 1/20 }

/-- The stage-3 fallback sampling configuration (`model.py` lines 196-209);
it differs from stage 2 only in `frequency_penalty`. -/
def backup_generation_config_stage3 (text_length : Nat) : GenerationConfig :=
  { temperature := 1/10, top_p := 3/10, top_k := 40, num_beams := 1,
    bos_token_id := 1, eos_token_id := 2, pad_token_id := 0,
    max_new_tokens := 2 * text_length, min_new_tokens := 1, do_sample := true,
    repetition_penalty := 1, frequency_penalty := 1/5 }

/-- The list `backup_generation_config` of `model.py` line 211. -/
def backup_generation_config (text_length : Nat) : List GenerationConfig :=
  [backup_generation_config_stage2 text_length, backup_generation_config_stage3 text_length]

/-- Embedding of the `while` loop of `get_model_response_anti_degen`
(`model.py` lines 215-221).  Loop state is `(stage, generation)` as in the
source; `regen s` stands for the regeneration call with
`backup_generation_config[s-1]`.  Next to the final generation the embedding
also returns the list of fallback stages at which a regeneration was actually
performed, so that theorems can count the fallbacks. -/
def anti_degen_loop (regen : Nat → List Nat) (degenerate : List Nat → Bool)
    (stage : Nat) (generation : List Nat) : List Nat × List Nat :=
  if degenerate generation then
    if h : stage + 1 > 2 then (generation, [])
    else
      let r := anti_degen_loop regen degenerate (stage + 1) (regen (stage + 1))
      (r.1, (stage + 1) :: r.2)
  else (generation, [])
termination_by 3 - stage
decreasing_by omega

/-- Embedding of `SakuraModel.get_model_response_anti_degen` (`model.py` lines
180-224): generate once with the caller's configuration; when the produced
sequence is longer than `2 * text_length`, run the degeneration loop with the
two fallback configurations; decode and split the final generation.  `entropy`
maps the stage of each `generate` call (0 for the initial one) to its entropy
source; the second component of the result is the loop's fallback trace. -/
def get_model_response_anti_degen (ext : Externals) (model : Model)
    (tokenizer : Tokenizer) (prompt : String) (model_version : String)
    (generation_config : GenerationConfig) (text_length : Nat)
    (entropy : Nat → Nat) : String × List Nat :=
  let input_token := tokenizer.tokenize prompt
  let generation := model.generate input_token generation_config (entropy 0)
  let r :=
    if generation.length > 2 * text_length then
      anti_degen_loop
        (fun stage => model.generate input_token
          ((backup_generation_config text_length).getD (stage - 1)
            (backup_generation_config_stage2 text_length)) (entropy stage))
        (fun g => ext.detect_degeneration g model_version) 0 generation
    else (generation, [])
  (ext.split_response (tokenizer.decode r.1) model_version, r.2)

section Locking

/-- Program counter of one caller thread of `completion`: idle before
`with self.lock`, the three steps of the critical section of
`get_model_response` (`model.py` lines 161-168), and finished. -/
inductive Pc where
  | idle
  | tokenizeStep
  | generateStep
  | decodeStep
  | done
  deriving DecidableEq, Repr

/-- A thread whose program counter is strictly inside the `with self.lock`
block. -/
def Pc.inCritical : Pc → Bool
  | .tokenizeStep => true
  | .generateStep => true
  | .decodeStep => true
  | _ => false

/-- Global state of the lock discipline of `get_model_response`: who holds
`self.lock`, and where each thread is. -/
structure LockState (T : Type) where
  owner : Option T
  pc : T → Pc

/-- Interleaving semantics of threads running `get_model_response`: entering
`with self.lock` requires the lock to be free and takes it; the three critical
steps run with the lock held; leaving the block releases the lock. -/
inductive LockStep {T : Type} [DecidableEq T] : LockState T → LockState T → Prop where
  | acquire (s : LockState T) (t : T) :
      s.pc t = .idle → s.owner = none →
      LockStep s { owner := some t, pc := Function.update s.pc t .tokenizeStep }
  | tok (s : LockState T) (t : T) :
      s.pc t = .tokenizeStep →
      LockStep s { s with pc := Function.update s.pc t .generateStep }
  | gen (s : LockState T) (t : T) :
      s.pc t = .generateStep →
      LockStep s { s with pc := Function.update s.pc t .decodeStep }
  | release (s : LockState T) (t : T) :
      s.pc t = .decodeStep →
      LockStep s { owner := none, pc := Function.update s.pc t .done }

/-- Initial state: the lock is free and every thread is idle. -/
def LockState.init (T : Type) : LockState T :=
  { owner := none, pc := fun _ => .idle }

/-- States reachable from the initial state by interleaved steps. -/
inductive LockReachable {T : Type} [DecidableEq T] : LockState T → Prop where
  | init : LockReachable (LockState.init T)
  | step {s s' : LockState T} : LockReachable s → LockStep s s' → LockReachable s'

/-- Lock invariant: any thread inside the critical section is the lock owner. -/
def LockInv {T : Type} (s : LockState T) : Prop :=
  ∀ t : T, (s.pc t).inCritical = true → s.owner = some t

end Locking

/-! Concrete instances used to evaluate the embedding on closed inputs. -/

/-- A concrete tokenizer: every prompt becomes the single token `0`, every
sequence decodes to `"x"`. -/
def unitTokenizer : Tokenizer :=
  { tokenize := fun _ => [0], decode := fun _ => "x" }

/-- A concrete model that always generates a sequence of 100 tokens. -/
def wideModel : Model :=
  { generate := fun _ _ _ => List.replicate 100 0, config := {} }

/-- A concrete model that always generates the one-token sequence `[0]`. -/
def tinyModel : Model :=
  { generate := fun _ _ _ => [0], config := {} }

/-- A concrete model with a chosen self-config, generating nothing. -/
def modelWithCfg (mc : ModelSelfConfig) : Model :=
  { generate := fun _ _ _ => [], config := mc }

/-- A concrete loader returning `unitTokenizer` and `modelWithCfg mc`. -/
def loaderWith (mc : ModelSelfConfig) : SakuraModelConfig → Tokenizer × Model :=
  fun _ => (unitTokenizer, modelWithCfg mc)

/-- Concrete externals: the splitter returns its input unchanged, the detector
always flags degeneration, and the registry holds one fixed test case. -/
def idExternals : Externals :=
  { split_response := fun r _ => r,
    detect_degeneration := fun _ _ => true,
    get_test_case_by_model_version := fun _ => ({}, "i", "o"),
    get_prompt := fun i _ => i }

/-- A complete self-config as a healthy checkpoint would carry it. -/
def cfgOkSelf : ModelSelfConfig :=
  { sakura_name := some "sakura", sakura_version := some "0.9", sakura_quant := some "q8" }

/-- A concrete operator configuration declaring version `0.9` with the trust
flag set. -/
def cfgDecl : SakuraModelConfig :=
  { model_name_or_path := "m", use_gptq_model := false, trust_remote_code := true,
    llama := false, text_length := 5, model_name := none, model_quant := none,
    model_version := "0.9" }

/-- A concrete service state over `cfgDecl`, `unitTokenizer` and `wideModel`. -/
def stateWide : SakuraModelState :=
  { cfg := cfgDecl, tokenizer := unitTokenizer, model := wideModel }

/-- The lock state in which thread `true` has just acquired the lock. -/
def lockStateOne : LockState Bool :=
  { owner := some true, pc := Function.update (fun _ => Pc.idle) true Pc.tokenizeStep }

/-- Discriminator: an init outcome that is process termination with a non-zero
exit code. -/
def InitOutcome.exitedNonzero : InitOutcome → Bool
  | .exited code _ => decide (code ≠ 0)
  | _ => false

/-! Theorems settling the claims. -/

/-- C1: the claim says `load_model` raises the configuration error iff the
trust flag is unset and the requested version is a member of the set
`{"0.5", "0.7", "0.8"}`.  The source instead tests Python substring
containment `args.model_version in "0.5 0.7 0.8"`, so the version `"0."`,
which is none of the three versions, still raises the error when the trust
flag is unset — the code contradicts its own error message. -/
theorem trust_check_substring_bug :
    (∃ msg, load_model (loaderWith {})
      { model_name_or_path := "m", use_gptq_model := false, trust_remote_code := false,
        llama := false, text_length := 512, model_name := none, model_quant := none,
        model_version := "0." } = .error msg)
    ∧ ("0." ≠ "0.5" ∧ "0." ≠ "0.7" ∧ "0." ≠ "0.8") :=
  ⟨⟨"If you use model version 0.5, 0.7 or 0.8, please add flag --trust_remote_code.", rfl⟩,
   by decide⟩

/-- C5: `get_max_text_length` returns the maximum of the configured default
and the requested length; it therefore returns the default at length `0` and
dominates both arguments. -/
theorem get_max_text_length_spec (cfg : SakuraModelConfig) (length : Nat) :
    get_max_text_length cfg length = max cfg.text_length length ∧
    get_max_text_length cfg 0 = cfg.text_length ∧
    cfg.text_length ≤ get_max_text_length cfg length ∧
    length ≤ get_max_text_length cfg length :=
  ⟨rfl, by simp [get_max_text_length], Nat.le_max_left _ _, Nat.le_max_right _ _⟩

/-- C2 counterexample: with the configured default `text_length = 5` and the
three-character prompt `"abc"`, the effective value `max(5, 3) = 5` computed by
`completion` does not bound the generation — the response reports 99 new
tokens.  The value is passed to `get_model_response`, whose body never reads
it. -/
theorem completion_text_length_not_bounding :
    get_max_text_length cfgDecl ("abc".length) = 5 ∧
    (completion idExternals stateWide "abc" {} 0 false).1.new_token = 99 ∧
    ¬ ((completion idExternals stateWide "abc" {} 0 false).1.new_token ≤
        (get_max_text_length cfgDecl ("abc".length) : Int)) :=
  ⟨rfl, rfl, by decide⟩

/-- C2 amended: `completion` determines the value
`max(configured text_length, prompt length)` and passes it as the
`text_length` argument of `get_model_response`, but that argument is unused,
so the value does not bound the generation: the response is the same for
every `text_length` argument. -/
theorem completion_effective_length_unused (ext : Externals) (s : SakuraModelState)
    (prompt : String) (gc : GenerationConfig) (entropy : Nat) (b : Bool) :
    completion ext s prompt gc entropy b =
      get_model_response ext s.model s.tokenizer prompt s.cfg.model_version gc
        (max s.cfg.text_length prompt.length) entropy b ∧
    (∀ t₁ t₂ : Nat,
      get_model_response ext s.model s.tokenizer prompt s.cfg.model_version gc t₁ entropy b =
      get_model_response ext s.model s.tokenizer prompt s.cfg.model_version gc t₂ entropy b) :=
  ⟨rfl, fun _ _ => rfl⟩

/-- C8: when the configuration is non-sampling and the model's `generate`
ignores its entropy source on non-sampling configurations, two `completion`
calls with the same prompt and configuration return the same text. -/
theorem completion_deterministic (ext : Externals) (s : SakuraModelState)
    (prompt : String) (gc : GenerationConfig) (e₁ e₂ : Nat) (b₁ b₂ : Bool)
    (hns : gc.do_sample = false)
    (hdet : ∀ toks g e e', g.do_sample = false →
      s.model.generate toks g e = s.model.generate toks g e') :
    (completion ext s prompt gc e₁ b₁).1.text = (completion ext s prompt gc e₂ b₂).1.text := by
  simp only [completion, get_model_response]
  rw [hdet (s.tokenizer.tokenize prompt) gc e₁ e₂ hns]

/-- Witness for C8 at a concrete deterministic model. -/
theorem completion_deterministic_witness :
    (completion idExternals stateWide "p" {} 0 true).1.text =
    (completion idExternals stateWide "p" {} 1 true).1.text :=
  completion_deterministic idExternals stateWide "p" {} 0 1 true true rfl
    (fun _ _ _ _ _ => rfl)

/-- C10: `completion`, embedded as a state transformer, leaves the service
state (configuration record, tokenizer and model bindings) unchanged, and its
only output is the freshly constructed response record built from the
generation. -/
theorem completion_frame (ext : Externals) (s : SakuraModelState) (prompt : String)
    (gc : GenerationConfig) (entropy : Nat) (b : Bool) :
    (completionS ext s prompt gc entropy b).1 = s ∧
    (completionS ext s prompt gc entropy b).1.cfg = s.cfg ∧
    (completionS ext s prompt gc entropy b).1.tokenizer = s.tokenizer ∧
    (completionS ext s prompt gc entropy b).1.model = s.model ∧
    (completionS ext s prompt gc entropy b).2.1 =
      { context_token := (s.tokenizer.tokenize prompt).length,
        new_token := ((s.model.generate (s.tokenizer.tokenize prompt) gc entropy).length : Int)
          - ((s.tokenizer.tokenize prompt).length : Int),
        text := ext.split_response
          (s.tokenizer.decode (s.model.generate (s.tokenizer.tokenize prompt) gc entropy))
          s.cfg.model_version } :=
  ⟨rfl, rfl, rfl, rfl, rfl⟩

/-- C3: run right after a successful load, `SakuraModel.__init__` terminates
the process with a non-zero exit status whenever one of the three `sakura_*`
attributes is missing from the model's config or the declared version differs
from the model's self-reported version; otherwise it succeeds and back-fills
the configuration record's three post-load fields with the reported values. -/
theorem init_version_guard (loader : SakuraModelConfig → Tokenizer × Model)
    (cfg : SakuraModelConfig) (tok : Tokenizer) (model : Model)
    (hload : load_model loader cfg = .ok (tok, model)) :
    ((model.config.sakura_name = none ∨ model.config.sakura_version = none ∨
      model.config.sakura_quant = none ∨ model.config.sakura_version ≠ some cfg.model_version) →
     (SakuraModel_init loader cfg).exitedNonzero = true) ∧
    (∀ name v quant, model.config.sakura_name = some name →
      model.config.sakura_version = some v → model.config.sakura_quant = some quant →
      cfg.model_version = v →
      SakuraModel_init loader cfg = .succeeded
        { cfg := { cfg with model_name := some name, model_version := v, model_quant := some quant },
          tokenizer := tok, model := model }) := by
  unfold SakuraModel_init
  rw [hload]
  constructor
  · intro hbad
    rcases hn : model.config.sakura_name with _ | name
    · simp [hn, InitOutcome.exitedNonzero]
    · rcases hv : model.config.sakura_version with _ | v
      · simp [hn, hv, InitOutcome.exitedNonzero]
      · rcases hq : model.config.sakura_quant with _ | quant
        · simp [hn, hv, hq, InitOutcome.exitedNonzero]
        · have hmv : cfg.model_version ≠ v := by
            rcases hbad with h | h | h | h
            · simp [hn] at h
            · simp [hv] at h
            · simp [hq] at h
            · rw [hv] at h
              intro hc
              exact h (by rw [hc])
          simp [hn, hv, hq, hmv, InitOutcome.exitedNonzero]
  · intro name v quant hn hv hq hmv
    simp [hn, hv, hq, hmv]

/-- Witness for C3: construction at a concrete checkpoint whose self-config
matches the declared version succeeds with the three fields back-filled. -/
theorem init_version_guard_witness :
    SakuraModel_init (loaderWith cfgOkSelf) cfgDecl = .succeeded
      { cfg := { cfgDecl with
          model_name := some "sakura",
          model_version := "0.9",
          model_quant := some "q8" },
        tokenizer := unitTokenizer, model := modelWithCfg cfgOkSelf } :=
  (init_version_guard (loaderWith cfgOkSelf) cfgDecl unitTokenizer (modelWithCfg cfgOkSelf)
    rfl).2 "sakura" "0.9" "q8" rfl rfl rfl rfl

/-- When the detector flags every sequence, the degeneration loop performs the
fallback regenerations at stages 1 and 2 and returns the stage-2 regeneration. -/
lemma anti_degen_loop_all_degenerate (regen : Nat → List Nat) (degenerate : List Nat → Bool)
    (h : ∀ g, degenerate g = true) (g0 : List Nat) :
    anti_degen_loop regen degenerate 0 g0 = (regen 2, [1, 2]) := by
  simp [anti_degen_loop, h]

/-- C4: when the degeneration detector flags the output at every stage and the
initial generation trips the length gate, `get_model_response_anti_degen`
performs exactly two fallback regenerations (stage 2 then stage 3, i.e.
fallback trace `[1, 2]`), never a third, and returns the post-processed text of
the last — stage-3 — generation. -/
theorem anti_degen_exactly_two_fallbacks (ext : Externals) (model : Model)
    (tokenizer : Tokenizer) (prompt model_version : String) (gc : GenerationConfig)
    (text_length : Nat) (entropy : Nat → Nat)
    (hdeg : ∀ g, ext.detect_degeneration g model_version = true)
    (hlen : (model.generate (tokenizer.tokenize prompt) gc (entropy 0)).length > 2 * text_length) :
    (get_model_response_anti_degen ext model tokenizer prompt model_version gc text_length
      entropy).2 = [1, 2] ∧
    get_model_response_anti_degen ext model tokenizer prompt model_version gc text_length entropy =
      (ext.split_response (tokenizer.decode (model.generate (tokenizer.tokenize prompt)
        (backup_generation_config_stage3 text_length) (entropy 2))) model_version, [1, 2]) := by
  have hloop := anti_degen_loop_all_degenerate
      (fun stage => model.generate (tokenizer.tokenize prompt)
        ((backup_generation_config text_length).getD (stage - 1)
          (backup_generation_config_stage2 text_length)) (entropy stage))
      (fun g => ext.detect_degeneration g model_version)
      (fun g => hdeg g)
      (model.generate (tokenizer.tokenize prompt) gc (entropy 0))
  have hmain : get_model_response_anti_degen ext model tokenizer prompt model_version gc
      text_length entropy =
      (ext.split_response (tokenizer.decode (model.generate (tokenizer.tokenize prompt)
        (backup_generation_config_stage3 text_length) (entropy 2))) model_version, [1, 2]) := by
    simp only [get_model_response_anti_degen]
    rw [if_pos hlen, hloop]
    simp [backup_generation_config]
  exact ⟨by rw [hmain], hmain⟩

/-- Witness for C4: with an always-flagging detector and a 100-token
generation against `text_length = 0`, the fallback trace is `[1, 2]`. -/
theorem anti_degen_exactly_two_fallbacks_witness :
    (get_model_response_anti_degen idExternals wideModel unitTokenizer "abc" "0.8" {} 0
      (fun _ => 0)).2 = [1, 2] :=
  (anti_degen_exactly_two_fallbacks idExternals wideModel unitTokenizer "abc" "0.8" {} 0
    (fun _ => 0) (fun _ => rfl) (by decide)).1

/-- C7: the degeneration detector is consulted iff the initial generation is
strictly longer than twice the requested text length.  Below the gate the
initial generation is decoded, post-processed and returned with an empty
fallback trace, and the result does not depend on the detector at all; above
the gate the first fallback happens iff the detector flags the initial
generation. -/
theorem anti_degen_length_gate (ext : Externals) (model : Model) (tokenizer : Tokenizer)
    (prompt model_version : String) (gc : GenerationConfig) (text_length : Nat)
    (entropy : Nat → Nat) :
    (¬ (model.generate (tokenizer.tokenize prompt) gc (entropy 0)).length > 2 * text_length →
      (get_model_response_anti_degen ext model tokenizer prompt model_version gc text_length
          entropy =
        (ext.split_response (tokenizer.decode (model.generate (tokenizer.tokenize prompt) gc
          (entropy 0))) model_version, []) ∧
       ∀ d, get_model_response_anti_degen { ext with detect_degeneration := d } model tokenizer
          prompt model_version gc text_length entropy =
        get_model_response_anti_degen ext model tokenizer prompt model_version gc text_length
          entropy)) ∧
    ((model.generate (tokenizer.tokenize prompt) gc (entropy 0)).length > 2 * text_length →
      (ext.detect_degeneration (model.generate (tokenizer.tokenize prompt) gc (entropy 0))
          model_version = false →
        get_model_response_anti_degen ext model tokenizer prompt model_version gc text_length
            entropy =
          (ext.split_response (tokenizer.decode (model.generate (tokenizer.tokenize prompt) gc
            (entropy 0))) model_version, [])) ∧
      (ext.detect_degeneration (model.generate (tokenizer.tokenize prompt) gc (entropy 0))
          model_version = true →
        (get_model_response_anti_degen ext model tokenizer prompt model_version gc text_length
          entropy).2 ≠ [])) := by
  constructor
  · intro hle
    constructor
    · simp only [get_model_response_anti_degen]
      rw [if_neg hle]
    · intro d
      simp only [get_model_response_anti_degen]
      rw [if_neg hle, if_neg hle]
  · intro hgt
    constructor
    · intro hnd
      simp only [get_model_response_anti_degen]
      rw [if_pos hgt, anti_degen_loop]
      simp [hnd]
    · intro hd
      simp only [get_model_response_anti_degen]
      rw [if_pos hgt, anti_degen_loop]
      simp [hd]

/-- Witness for C7: a one-token generation against `text_length = 5` stays
below the gate and is returned directly with an empty fallback trace. -/
theorem anti_degen_length_gate_witness :
    get_model_response_anti_degen idExternals tinyModel unitTokenizer "p" "0.8" {} 5
      (fun _ => 0) = ("x", []) :=
  ((anti_degen_length_gate idExternals tinyModel unitTokenizer "p" "0.8" {} 5
    (fun _ => 0)).1 (by decide)).1

/-- C6: `check_model_by_magic` returns `true` iff the produced response text is
string-equal to the expected output of the version-keyed test case; its run
goes through `completion` with speed-printing disabled (no speed event in the
log); on mismatch it returns `false` after logging the prompt, the expected and
the actual output at warning level. -/
theorem check_model_by_magic_spec (ext : Externals) (s : SakuraModelState) (entropy : Nat) :
    ((check_model_by_magic ext s entropy).1 = true ↔
      (test_loaded ext s entropy).2.1 = (test_loaded ext s entropy).2.2.1.text) ∧
    (∀ e ∈ (check_model_by_magic ext s entropy).2, e.isSpeed = false) ∧
    ((check_model_by_magic ext s entropy).1 = false →
      LogEvent.warn "model output is not correct, please check the loaded model" ∈
        (check_model_by_magic ext s entropy).2 ∧
      LogEvent.warn ("input: " ++ (test_loaded ext s entropy).1) ∈
        (check_model_by_magic ext s entropy).2 ∧
      LogEvent.warn ("ground_truth: " ++ (test_loaded ext s entropy).2.1) ∈
        (check_model_by_magic ext s entropy).2 ∧
      LogEvent.warn ("current output: " ++ (test_loaded ext s entropy).2.2.1.text) ∈
        (check_model_by_magic ext s entropy).2) := by
  have hclogs : (test_loaded ext s entropy).2.2.2 = [] := rfl
  by_cases h : (test_loaded ext s entropy).2.1 = (test_loaded ext s entropy).2.2.1.text
  · refine ⟨by simp [check_model_by_magic, h], ?_, ?_⟩
    · intro e he
      simp [check_model_by_magic, hclogs, h] at he
      rcases he with he | he <;> simp [he, LogEvent.isSpeed]
    · intro hfalse
      simp [check_model_by_magic, h] at hfalse
  · refine ⟨by simp [check_model_by_magic, h], ?_, ?_⟩
    · intro e he
      simp [check_model_by_magic, hclogs, h] at he
      rcases he with he | he | he | he | he | he <;> simp [he, LogEvent.isSpeed]
    · intro _
      refine ⟨?_, ?_, ?_, ?_⟩ <;> simp [check_model_by_magic, hclogs, h]

/-- Witness for C6 at a concrete mismatching test case: the check returns
`false` and the warning naming the prompt is among the emitted log events. -/
theorem check_model_by_magic_spec_witness :
    (check_model_by_magic idExternals stateWide 0).1 = false ∧
    LogEvent.warn ("input: " ++ (test_loaded idExternals stateWide 0).1) ∈
      (check_model_by_magic idExternals stateWide 0).2 :=
  ⟨rfl, ((check_model_by_magic_spec idExternals stateWide 0).2.2 rfl).2.1⟩

/-- One interleaving step preserves the lock invariant. -/
lemma lockStep_preserves {T : Type} [DecidableEq T] {s s' : LockState T}
    (hstep : LockStep s s') (hinv : LockInv s) : LockInv s' := by
  cases hstep with
  | acquire t hpc howner =>
    intro u hu
    by_cases hut : u = t
    · subst hut; rfl
    · exfalso
      simp only [Function.update_noteq hut] at hu
      have h1 := hinv u hu
      rw [howner] at h1
      exact Option.noConfusion h1
  | tok t hpc =>
    intro u hu
    by_cases hut : u = t
    · subst hut
      exact hinv u (by simp [hpc, Pc.inCritical])
    · simp only [Function.update_noteq hut] at hu
      exact hinv u hu
  | gen t hpc =>
    intro u hu
    by_cases hut : u = t
    · subst hut
      exact hinv u (by simp [hpc, Pc.inCritical])
    · simp only [Function.update_noteq hut] at hu
      exact hinv u hu
  | release t hpc =>
    intro u hu
    exfalso
    by_cases hut : u = t
    · subst hut
      simp only [Function.update_same] at hu
      simp [Pc.inCritical] at hu
    · simp only [Function.update_noteq hut] at hu
      have h1 := hinv u hu
      have h2 := hinv t (by simp [hpc, Pc.inCritical])
      rw [h1] at h2
      exact hut (Option.some_inj.mp h2)

/-- Every reachable lock state satisfies the lock invariant. -/
lemma lockReachable_inv {T : Type} [DecidableEq T] {s : LockState T}
    (h : LockReachable s) : LockInv s := by
  induction h with
  | init => intro t ht; simp [LockState.init, Pc.inCritical] at ht
  | step _ hstep ih => exact lockStep_preserves hstep ih

/-- C9: in every reachable interleaving of threads running
`get_model_response`, the per-instance mutex gives mutual exclusion over the
tokenize/generate/decode critical section: any two threads inside it are the
same thread, so steps of different calls never interleave. -/
theorem completion_mutual_exclusion {T : Type} [DecidableEq T] (s : LockState T)
    (hs : LockReachable s) (t₁ t₂ : T)
    (h₁ : (s.pc t₁).inCritical = true) (h₂ : (s.pc t₂).inCritical = true) :
    t₁ = t₂ := by
  have hinv := lockReachable_inv hs
  have e1 := hinv t₁ h₁
  have e2 := hinv t₂ h₂
  rw [e1] at e2
  exact Option.some_inj.mp e2

/-- Witness for C9 at the concrete reachable state in which thread `true` has
just acquired the lock. -/
theorem completion_mutual_exclusion_witness :
    LockReachable lockStateOne ∧ (lockStateOne.pc true).inCritical = true ∧
    (true : Bool) = true := by
  have hstep : LockStep (LockState.init Bool) lockStateOne :=
    LockStep.acquire (LockState.init Bool) true rfl rfl
  have hreach : LockReachable lockStateOne := LockReachable.step LockReachable.init hstep
  have hcrit : (lockStateOne.pc true).inCritical = true := by
    simp [lockStateOne, Function.update, Pc.inCritical]
  exact ⟨hreach, hcrit, completion_mutual_exclusion lockStateOne hreach true true hcrit hcrit⟩

end Sakura
